import Mathlib

/-
Formal model of the SPI register-access layer and device sequencer of
lora.c (UCSD CubeSat LoRa development code for the SX1278 transceiver).

The bcm2835 full-duplex transfer primitive is abstracted as a peripheral
behavior: a function from the peripheral's internal state and the outbound
byte buffer to a new internal state and the inbound byte buffer.  Each call
to the transfer primitive is recorded in an event trace, and the crude
busy-wait delay loop of main is recorded as its own trace event carrying
the number of iterations the loop performed, so that ordering properties of
the sequencer can be stated over the trace.  Bytes are modelled as natural
numbers; the uint8_t return type of read_reg and write_reg is modelled by
reducing the returned byte modulo 256.
-/

set_option maxRecDepth 4000

namespace Lora

/-- Observable events of one program run: one full-duplex transfer with its
outbound and inbound buffers, or one completed busy-wait delay loop with the
number of iterations it performed. -/
inductive Event where
  | xfer (tbuf rbuf : List Nat) : Event
  | spinWait (iters : Nat) : Event
deriving DecidableEq

/-- Behavior of the SPI peripheral: given its internal state and the outbound
buffer, it produces a new internal state and the inbound buffer clocked back
during the same transfer. -/
def Periph (σ : Type) : Type := σ → List Nat → σ × List Nat

/-- State threaded through the program: the peripheral's internal state and
the trace of events so far. -/
structure SpiState (σ : Type) where
  periph : σ
  trace : List Event

/-- Model of bcm2835_spi_transfernb: one synchronous full-duplex transfer of
the outbound buffer, returning the inbound buffer and recording the transfer
in the trace. -/
def bcm2835_spi_transfernb {σ : Type} (P : Periph σ) (s : SpiState σ)
    (tbuf : List Nat) : SpiState σ × List Nat :=
  let r := P s.periph tbuf
  (⟨r.1, s.trace ++ [Event.xfer tbuf r.2]⟩, r.2)

/-- SX1278 device mode FSK_SLEEP, 0x08: must be entered before switching to
the LoRa mode family. -/
def FSK_SLEEP : Nat := 0x08

/-- SX1278 device mode FSK_CAD, 0x0F: apparent default startup mode. -/
def FSK_CAD : Nat := 0x0F

/-- SX1278 device mode LORA_SLEEP, 0x88. -/
def LORA_SLEEP : Nat := 0x88

/-- SX1278 device mode LORA_STANDBY, 0x89. -/
def LORA_STANDBY : Nat := 0x89

/-- SX1278 device mode LORA_TX, 0x8B. -/
def LORA_TX : Nat := 0x8B

/-- SX1278 device mode LORA_RX_CONT, 0x8D. -/
def LORA_RX_CONT : Nat := 0x8D

/-- SX1278 device mode LORA_RX_SINGLE, 0x8E. -/
def LORA_RX_SINGLE : Nat := 0x8E

/-- SX1278 device mode LORA_CAD, 0x8F. -/
def LORA_CAD : Nat := 0x8F

/-- Register address 0x00, the FIFO data register. -/
def REG_FIFO : Nat := 0x00

/-- Register address 0x01, the operating-mode register. -/
def REG_OP_MODE : Nat := 0x01

/-- Register address 0x06. -/
def REG_RF_FREQ_MSB_MSB : Nat := 0x06

/-- Register address 0x07. -/
def REG_RF_FREQ_MSB : Nat := 0x07

/-- Register address 0x08. -/
def REG_RF_FREQ_LSB : Nat := 0x08

/-- Register address 0x09. -/
def REG_PA_CONFIG : Nat := 0x09

/-- Register address 0x0A. -/
def REG_PA_RAMP : Nat := 0x0A

/-- Register address 0x0B. -/
def REG_OCP : Nat := 0x0B

/-- Register address 0x0C. -/
def REG_LNA : Nat := 0x0C

/-- Register address 0x0D, the FIFO address pointer register. -/
def REG_FIFO_ADDR_PTR : Nat := 0x0D

/-- Register address 0x0E. -/
def REG_FIFO_TX_BASE_ADDR : Nat := 0x0E

/-- Register address 0x0F. -/
def REG_FIFO_RX_BASE_ADDR : Nat := 0x0F

/-- Register address 0x10. -/
def REG_FIFO_RX_CURRENT_ADDR : Nat := 0x10

/-- Register address 0x11. -/
def REG_IRQ_FLAGS_MASK : Nat := 0x11

/-- Register address 0x12, the IRQ flags register. -/
def REG_IRQ_FLAGS : Nat := 0x12

/-- Register address 0x13. -/
def REG_RX_NUM_BYTES : Nat := 0x13

/-- Register address 0x16. -/
def REG_RX_PACKET_COUNT_MSB : Nat := 0x16

/-- Register address 0x17. -/
def REG_RX_PACKET_COUNT_LSB : Nat := 0x17

/-- Register address 0x18. -/
def REG_MODEM_STAT : Nat := 0x18

/-- Register address 0x19. -/
def REG_PACKET_SNR : Nat := 0x19

/-- Register address 0x1A. -/
def REG_PACKET_RSSI : Nat := 0x1A

/-- Register address 0x1B. -/
def REG_CURRENT_RSSI : Nat := 0x1B

/-- Register address 0x1C. -/
def REG_HOP_CHANNEL : Nat := 0x1C

/-- Register address 0x1D. -/
def REG_MODEM_CONFIG1 : Nat := 0x1D

/-- Register address 0x1E. -/
def REG_MODEM_CONFIG2 : Nat := 0x1E

/-- Register address 0x20. -/
def REG_PREAMBLE_LEN_MSB : Nat := 0x20

/-- Register address 0x21. -/
def REG_PREAMBLE_LEN_LSB : Nat := 0x21

/-- Register address 0x22. -/
def REG_PAYLOAD_LEN : Nat := 0x22

/-- Register address 0x23. -/
def REG_MAX_PAYLOAD_LEN : Nat := 0x23

/-- Register address 0x24. -/
def REG_HOP_PERIOD : Nat := 0x24

/-- Register address 0x26. -/
def REG_MODEM_CONFIG3 : Nat := 0x26

/-- Register address 0x31. -/
def REG_DETECT_OPTIMIZE : Nat := 0x31

/-- Register address 0x37. -/
def REG_DETECT_THRESH : Nat := 0x37

/-- Register address 0x39. -/
def REG_SYNC_WORD : Nat := 0x39

/-- Helpful value 0x80: the base address of the transmit region of the FIFO. -/
def FIFO_TX_BASE_ADDR : Nat := 0x80

/-- Model of read_reg: build the outbound buffer with the address followed by
a placeholder 0x00, perform one two-byte full-duplex transfer, and return the
second inbound byte (as a uint8_t, hence modulo 256). -/
def read_reg {σ : Type} (P : Periph σ) (s : SpiState σ) (addr : Nat) :
    SpiState σ × Nat :=
  let tbuf := [addr, 0x00]
  let r := bcm2835_spi_transfernb P s tbuf
  (r.1, (r.2.getD 1 0) % 256)

/-- Model of write_reg: build the outbound buffer with the address flagged by
a high most-significant bit followed by the data byte, perform one two-byte
full-duplex transfer, and return the second inbound byte (as a uint8_t, hence
modulo 256). -/
def write_reg {σ : Type} (P : Periph σ) (s : SpiState σ) (addr data : Nat) :
    SpiState σ × Nat :=
  let tbuf := [addr ||| 0x80, data]
  let r := bcm2835_spi_transfernb P s tbuf
  (r.1, (r.2.getD 1 0) % 256)

/-- Model of diagnose: read every defined register except REG_FIFO, in the
order of the source, discarding each returned value. -/
def diagnose {σ : Type} (P : Periph σ) (s : SpiState σ) : SpiState σ :=
  let s := (read_reg P s REG_OP_MODE).1
  let s := (read_reg P s REG_RF_FREQ_MSB_MSB).1
  let s := (read_reg P s REG_RF_FREQ_MSB).1
  let s := (read_reg P s REG_RF_FREQ_LSB).1
  let s := (read_reg P s REG_PA_CONFIG).1
  let s := (read_reg P s REG_PA_RAMP).1
  let s := (read_reg P s REG_OCP).1
  let s := (read_reg P s REG_LNA).1
  let s := (read_reg P s REG_FIFO_ADDR_PTR).1
  let s := (read_reg P s REG_FIFO_TX_BASE_ADDR).1
  let s := (read_reg P s REG_FIFO_RX_BASE_ADDR).1
  let s := (read_reg P s REG_FIFO_RX_CURRENT_ADDR).1
  let s := (read_reg P s REG_IRQ_FLAGS_MASK).1
  let s := (read_reg P s REG_IRQ_FLAGS).1
  let s := (read_reg P s REG_RX_NUM_BYTES).1
  let s := (read_reg P s REG_RX_PACKET_COUNT_MSB).1
  let s := (read_reg P s REG_RX_PACKET_COUNT_LSB).1
  let s := (read_reg P s REG_MODEM_STAT).1
  let s := (read_reg P s REG_PACKET_SNR).1
  let s := (read_reg P s REG_PACKET_RSSI).1
  let s := (read_reg P s REG_CURRENT_RSSI).1
  let s := (read_reg P s REG_HOP_CHANNEL).1
  let s := (read_reg P s REG_MODEM_CONFIG1).1
  let s := (read_reg P s REG_MODEM_CONFIG2).1
  let s := (read_reg P s REG_PREAMBLE_LEN_MSB).1
  let s := (read_reg P s REG_PREAMBLE_LEN_LSB).1
  let s := (read_reg P s REG_PAYLOAD_LEN).1
  let s := (read_reg P s REG_MAX_PAYLOAD_LEN).1
  let s := (read_reg P s REG_HOP_PERIOD).1
  let s := (read_reg P s REG_MODEM_CONFIG3).1
  let s := (read_reg P s REG_DETECT_OPTIMIZE).1
  let s := (read_reg P s REG_DETECT_THRESH).1
  (read_reg P s REG_SYNC_WORD).1

/-- Model of the busy-wait loop of main: starting from counter i, increment
while i is below 5000000 and return the final counter value. -/
def busyWaitLoop (i : Nat) : Nat :=
  if i < 5000000 then busyWaitLoop (i + 1) else i
termination_by 5000000 - i
decreasing_by omega

/-- Program state at entry of the sequencer: given peripheral state, empty
trace. -/
def initialState {σ : Type} (p0 : σ) : SpiState σ :=
  ⟨p0, []⟩

/-- The boot-mode read of main: first read of the operating-mode register. -/
def bootRead {σ : Type} (P : Periph σ) (p0 : σ) : SpiState σ × Nat :=
  read_reg P (initialState p0) REG_OP_MODE

/-- Mode-entry phase of main: after the boot-mode read, conditionally write
FSK_SLEEP when the most-significant bit of the boot mode is clear, then write
LORA_SLEEP and LORA_STANDBY. -/
def modeEntryState {σ : Type} (P : Periph σ) (p0 : σ) : SpiState σ :=
  let r := bootRead P p0
  let s1 := if r.2 &&& 0x80 = 0x00 then (write_reg P r.1 REG_OP_MODE FSK_SLEEP).1 else r.1
  let s2 := (write_reg P s1 REG_OP_MODE LORA_SLEEP).1
  (write_reg P s2 REG_OP_MODE LORA_STANDBY).1

/-- The standby-check read of main: the read of the operating-mode register
immediately after the LORA_STANDBY write, whose value is compared against
LORA_STANDBY. -/
def standbyCheck {σ : Type} (P : Periph σ) (p0 : σ) : SpiState σ × Nat :=
  read_reg P (modeEntryState P p0) REG_OP_MODE

/-- Transmit test of main: read the FIFO address pointer, set it to the
transmit base, write one payload byte 0xCC into the FIFO, trigger the
transmission, run the busy-wait loop, then read the IRQ flags register and
the operating-mode register. -/
def txTest {σ : Type} (P : Periph σ) (s : SpiState σ) : SpiState σ :=
  let s1 := (read_reg P s REG_FIFO_ADDR_PTR).1
  let s2 := (write_reg P s1 REG_FIFO_ADDR_PTR FIFO_TX_BASE_ADDR).1
  let s3 := (write_reg P s2 REG_FIFO 0xCC).1
  let s4 := (write_reg P s3 REG_OP_MODE LORA_TX).1
  let s5 : SpiState σ := ⟨s4.periph, s4.trace ++ [Event.spinWait (busyWaitLoop 0)]⟩
  let s6 := (read_reg P s5 REG_IRQ_FLAGS).1
  (read_reg P s6 REG_OP_MODE).1

/-- Model of main from the first SPI transfer on (bus and GPIO initialization
are outside the model): run the mode-entry phase, compare the standby-check
read against LORA_STANDBY and terminate with status 1 on mismatch; otherwise
run the diagnostics and the transmit test and terminate with status 0.
Returns the final state together with the process exit status. -/
def main {σ : Type} (P : Periph σ) (p0 : σ) : SpiState σ × Nat :=
  let c := standbyCheck P p0
  if c.2 ≠ LORA_STANDBY then (c.1, 1)
  else (txTest P (diagnose P c.1), 0)

/-- Outbound view of one event: the outbound buffer of a transfer, or the
iteration count of a busy wait.  Two runs with the same outbound view perform
the same register operations in the same order. -/
def sent : Event → List Nat ⊕ Nat
  | Event.xfer t _ => Sum.inl t
  | Event.spinWait n => Sum.inr n

/-- Outbound view of a whole trace. -/
def sentTrace {σ : Type} (s : SpiState σ) : List (List Nat ⊕ Nat) :=
  s.trace.map sent

/-- The register addresses defined in the source, in source order. -/
def definedRegisterAddrs : List Nat :=
  [REG_FIFO, REG_OP_MODE, REG_RF_FREQ_MSB_MSB, REG_RF_FREQ_MSB,
   REG_RF_FREQ_LSB, REG_PA_CONFIG, REG_PA_RAMP, REG_OCP, REG_LNA,
   REG_FIFO_ADDR_PTR, REG_FIFO_TX_BASE_ADDR, REG_FIFO_RX_BASE_ADDR,
   REG_FIFO_RX_CURRENT_ADDR, REG_IRQ_FLAGS_MASK, REG_IRQ_FLAGS,
   REG_RX_NUM_BYTES, REG_RX_PACKET_COUNT_MSB, REG_RX_PACKET_COUNT_LSB,
   REG_MODEM_STAT, REG_PACKET_SNR, REG_PACKET_RSSI, REG_CURRENT_RSSI,
   REG_HOP_CHANNEL, REG_MODEM_CONFIG1, REG_MODEM_CONFIG2,
   REG_PREAMBLE_LEN_MSB, REG_PREAMBLE_LEN_LSB, REG_PAYLOAD_LEN,
   REG_MAX_PAYLOAD_LEN, REG_HOP_PERIOD, REG_MODEM_CONFIG3,
   REG_DETECT_OPTIMIZE, REG_DETECT_THRESH, REG_SYNC_WORD]

/-- The register addresses read by diagnose, in the order diagnose reads
them. -/
def diagnoseAddrs : List Nat :=
  [REG_OP_MODE, REG_RF_FREQ_MSB_MSB, REG_RF_FREQ_MSB, REG_RF_FREQ_LSB,
   REG_PA_CONFIG, REG_PA_RAMP, REG_OCP, REG_LNA, REG_FIFO_ADDR_PTR,
   REG_FIFO_TX_BASE_ADDR, REG_FIFO_RX_BASE_ADDR, REG_FIFO_RX_CURRENT_ADDR,
   REG_IRQ_FLAGS_MASK, REG_IRQ_FLAGS, REG_RX_NUM_BYTES,
   REG_RX_PACKET_COUNT_MSB, REG_RX_PACKET_COUNT_LSB, REG_MODEM_STAT,
   REG_PACKET_SNR, REG_PACKET_RSSI, REG_CURRENT_RSSI, REG_HOP_CHANNEL,
   REG_MODEM_CONFIG1, REG_MODEM_CONFIG2, REG_PREAMBLE_LEN_MSB,
   REG_PREAMBLE_LEN_LSB, REG_PAYLOAD_LEN, REG_MAX_PAYLOAD_LEN,
   REG_HOP_PERIOD, REG_MODEM_CONFIG3, REG_DETECT_OPTIMIZE,
   REG_DETECT_THRESH, REG_SYNC_WORD]

/-- Mock peripheral of the round-trip property: one stored byte per 7-bit
address.  A transfer whose first outbound byte has the most-significant bit
set is a write: it stores the second outbound byte at the 7-bit address and
answers with the previously stored value in the second inbound position.
Otherwise the transfer is a read answering with the stored value in the
second inbound position.  The first inbound byte is always the garbage value
0x00. -/
def mock : Periph (Nat → Nat) := fun regs tbuf =>
  match tbuf with
  | [b0, b1] =>
      if 0x80 ≤ b0 then
        (fun x => if x = b0 % 0x80 then b1 else regs x, [0x00, regs (b0 % 0x80)])
      else
        (regs, [0x00, regs (b0 % 0x80)])
  | bs => (regs, bs.map fun _ => 0x00)

/-- Stateless peripheral answering every two-byte transfer with the fixed
second inbound byte v. -/
def constResp (v : Nat) : Periph Unit := fun u _ => (u, [0x00, v])

/-- Unfolding of the state component of read_reg. -/
theorem read_reg_fst {σ : Type} (P : Periph σ) (s : SpiState σ) (a : Nat) :
    (read_reg P s a).1 =
      ⟨(P s.periph [a, 0x00]).1,
       s.trace ++ [Event.xfer [a, 0x00] (P s.periph [a, 0x00]).2]⟩ := rfl

/-- Unfolding of the returned byte of read_reg. -/
theorem read_reg_snd {σ : Type} (P : Periph σ) (s : SpiState σ) (a : Nat) :
    (read_reg P s a).2 = ((P s.periph [a, 0x00]).2.getD 1 0) % 256 := rfl

/-- Unfolding of the state component of write_reg. -/
theorem write_reg_fst {σ : Type} (P : Periph σ) (s : SpiState σ) (a d : Nat) :
    (write_reg P s a d).1 =
      ⟨(P s.periph [a ||| 0x80, d]).1,
       s.trace ++ [Event.xfer [a ||| 0x80, d] (P s.periph [a ||| 0x80, d]).2]⟩ := rfl

/-- Unfolding of the returned byte of write_reg. -/
theorem write_reg_snd {σ : Type} (P : Periph σ) (s : SpiState σ) (a d : Nat) :
    (write_reg P s a d).2 = ((P s.periph [a ||| 0x80, d]).2.getD 1 0) % 256 := rfl

/-- Bytes returned by read_reg are below 256, by the uint8_t return type. -/
theorem read_reg_snd_lt {σ : Type} (P : Periph σ) (s : SpiState σ) (a : Nat) :
    (read_reg P s a).2 < 256 :=
  Nat.mod_lt _ (by norm_num)

/-- Setting the high bit of a 7-bit value adds 128. -/
theorem lor128_eq : ∀ a < 128, a ||| 128 = a + 128 := by decide

/-- On a byte, masking with 0x80 yields zero exactly when bit 7 is clear. -/
theorem land128_eq_zero_iff : ∀ b < 256, (b &&& 128 = 0 ↔ b.testBit 7 = false) := by
  decide

/-- On a byte, bit 7 is set exactly when the value is at least 128. -/
theorem testBit7_iff_ge : ∀ a < 256, (a.testBit 7 = true ↔ 128 ≤ a) := by decide

/-- The busy-wait loop started at any counter at most 5000000 terminates with
counter 5000000. -/
theorem busyWaitLoop_add : ∀ n i : Nat, i + n = 5000000 → busyWaitLoop i = 5000000 := by
  intro n
  induction n with
  | zero =>
      intro i h
      rw [busyWaitLoop.eq_def]
      simp only [show ¬ i < 5000000 by omega, if_false]
      omega
  | succ k ih =>
      intro i h
      rw [busyWaitLoop.eq_def]
      simp only [show i < 5000000 by omega, if_true]
      exact ih (i + 1) (by omega)

/-- The busy-wait loop of main performs exactly 5000000 iterations. -/
theorem busyWaitLoop_zero : busyWaitLoop 0 = 5000000 :=
  busyWaitLoop_add 5000000 0 (by norm_num)

/-- Outbound view of the trace after a read_reg call. -/
theorem sentTrace_read_reg {σ : Type} (P : Periph σ) (s : SpiState σ) (a : Nat) :
    sentTrace (read_reg P s a).1 = sentTrace s ++ [Sum.inl [a, 0x00]] := by
  rw [read_reg_fst]
  simp [sentTrace, sent]

/-- Outbound view of the trace after a write_reg call. -/
theorem sentTrace_write_reg {σ : Type} (P : Periph σ) (s : SpiState σ) (a d : Nat) :
    sentTrace (write_reg P s a d).1 = sentTrace s ++ [Sum.inl [a ||| 0x80, d]] := by
  rw [write_reg_fst]
  simp [sentTrace, sent]

/-- C1: for every address a in the range 0 to 0x7F, read_reg sends the
two-byte outbound buffer holding a followed by 0x00, performs exactly one
full-duplex transfer of exactly two bytes (recorded as exactly one new trace
event), and returns exactly the second inbound byte, discarding the first. -/
theorem C1_read_reg_exchange {σ : Type} (P : Periph σ) (s : SpiState σ)
    (a : Nat) (ha : a ≤ 0x7F) (p' : σ) (r0 r1 : Nat)
    (hP : P s.periph [a, 0x00] = (p', [r0, r1])) (hr1 : r1 < 256) :
    (read_reg P s a).1.trace = s.trace ++ [Event.xfer [a, 0x00] [r0, r1]] ∧
    (read_reg P s a).2 = r1 := by
  refine ⟨?_, ?_⟩
  · rw [read_reg_fst, hP]
  · rw [read_reg_snd, hP]
    simpa using Nat.mod_eq_of_lt hr1

/-- Witness for C1 at the example of the source comment block: reading
address 0x07 from a peripheral answering 0x80 in the second inbound byte. -/
theorem C1_read_reg_exchange_witness :
    (7 ≤ 0x7F ∧ constResp 0x80 () [7, 0x00] = ((), [0x00, 0x80]) ∧ 0x80 < 256) ∧
    ((read_reg (constResp 0x80) (initialState ()) 7).1.trace =
        (initialState ()).trace ++ [Event.xfer [7, 0x00] [0x00, 0x80]] ∧
      (read_reg (constResp 0x80) (initialState ()) 7).2 = 0x80) :=
  ⟨⟨by norm_num, rfl, by norm_num⟩,
   C1_read_reg_exchange (constResp 0x80) (initialState ()) 7 (by norm_num)
     () 0x00 0x80 rfl (by norm_num)⟩

/-- C2: for every address a in the range 0 to 0x7F and every data byte d,
write_reg sends the two-byte outbound buffer holding a with the
most-significant bit set followed by d, performs exactly one two-byte
full-duplex transfer, and returns the second inbound byte; against the mock
peripheral the returned byte is the value the register held immediately
before the write took effect. -/
theorem C2_write_reg_exchange {σ : Type} (P : Periph σ) (s : SpiState σ)
    (a d : Nat) (ha : a ≤ 0x7F) (hd : d < 256) (p' : σ) (r0 r1 : Nat)
    (hP : P s.periph [a ||| 0x80, d] = (p', [r0, r1])) (hr1 : r1 < 256) :
    (write_reg P s a d).1.trace = s.trace ++ [Event.xfer [a ||| 0x80, d] [r0, r1]] ∧
    (a ||| 0x80).testBit 7 = true ∧
    (write_reg P s a d).2 = r1 ∧
    (∀ (regs : Nat → Nat) (t : List Event), regs a < 256 →
      (write_reg mock ⟨regs, t⟩ a d).2 = regs a) := by
  have h128 : a < 128 := by omega
  have hlor : a ||| 0x80 = a + 128 := lor128_eq a h128
  refine ⟨?_, ?_, ?_, ?_⟩
  · rw [write_reg_fst, hP]
  · rw [hlor]
    exact (testBit7_iff_ge (a + 128) (by omega)).2 (by omega)
  · rw [write_reg_snd, hP]
    simpa using Nat.mod_eq_of_lt hr1
  · intro regs t hr
    rw [write_reg_snd]
    show ((mock regs [a ||| 0x80, d]).2.getD 1 0) % 256 = regs a
    rw [hlor]
    simp only [mock, show (0x80 : Nat) ≤ a + 128 by omega, if_true]
    have hmod : (a + 128) % 0x80 = a := by omega
    rw [hmod]
    simpa using Nat.mod_eq_of_lt hr

/-- Witness for C2 at the example of the source comment block: writing 0x08
to address 0x01 of a peripheral holding 0x0F there. -/
theorem C2_write_reg_exchange_witness :
    (1 ≤ 0x7F ∧ 0x08 < 256 ∧
      mock (fun _ => 0x0F) [1 ||| 0x80, 0x08] =
        (fun x => if x = 1 then 0x08 else 0x0F, [0x00, 0x0F]) ∧ 0x0F < 256) ∧
    ((write_reg mock (⟨fun _ => 0x0F, []⟩ : SpiState (Nat → Nat)) 1 0x08).1.trace =
        [] ++ [Event.xfer [1 ||| 0x80, 0x08] [0x00, 0x0F]] ∧
      (1 ||| 0x80).testBit 7 = true ∧
      (write_reg mock (⟨fun _ => 0x0F, []⟩ : SpiState (Nat → Nat)) 1 0x08).2 = 0x0F ∧
      (∀ (regs : Nat → Nat) (t : List Event), regs 1 < 256 →
        (write_reg mock ⟨regs, t⟩ 1 0x08).2 = regs 1)) :=
  ⟨⟨by norm_num, by norm_num, rfl, by norm_num⟩,
   C2_write_reg_exchange mock (⟨fun _ => 0x0F, []⟩ : SpiState (Nat → Nat)) 1 0x08
     (by norm_num) (by norm_num) (fun x => if x = 1 then 0x08 else 0x0F) 0x00 0x0F
     rfl (by norm_num)⟩

/-- C3: round trip against the mock peripheral: after write_reg of d at a,
read_reg at a returns d, and the write_reg call itself returned the value the
mock held at a immediately before the write. -/
theorem C3_roundtrip (regs : Nat → Nat) (a d : Nat)
    (ha : a ≤ 0x7F) (hd : d < 256) (hr : regs a < 256) :
    (read_reg mock (write_reg mock ⟨regs, []⟩ a d).1 a).2 = d ∧
    (write_reg mock ⟨regs, []⟩ a d).2 = regs a := by
  have h128 : a < 128 := by omega
  have hlor : a ||| 0x80 = a + 128 := lor128_eq a h128
  have hmod : (a + 128) % 0x80 = a := by omega
  have hmoda : a % 0x80 = a := Nat.mod_eq_of_lt h128
  refine ⟨?_, ?_⟩
  · rw [read_reg_snd, write_reg_fst]
    show ((mock (mock regs [a ||| 0x80, d]).1 [a, 0x00]).2.getD 1 0) % 256 = d
    rw [hlor]
    simp only [mock, show (0x80 : Nat) ≤ a + 128 by omega, if_true,
      show ¬ (0x80 : Nat) ≤ a by omega, if_false, hmod, hmoda]
    simpa using Nat.mod_eq_of_lt hd
  · rw [write_reg_snd]
    show ((mock regs [a ||| 0x80, d]).2.getD 1 0) % 256 = regs a
    rw [hlor]
    simp only [mock, show (0x80 : Nat) ≤ a + 128 by omega, if_true, hmod]
    simpa using Nat.mod_eq_of_lt hr

/-- Witness for C3: writing 0xCC to register 0x0D of a mock holding 0x00
there, then reading it back. -/
theorem C3_roundtrip_witness :
    (0x0D ≤ 0x7F ∧ 0xCC < 256 ∧ (fun _ => 0x00 : Nat → Nat) 0x0D < 256) ∧
    ((read_reg mock
        (write_reg mock (⟨fun _ => 0x00, []⟩ : SpiState (Nat → Nat)) 0x0D 0xCC).1
        0x0D).2 = 0xCC ∧
      (write_reg mock (⟨fun _ => 0x00, []⟩ : SpiState (Nat → Nat)) 0x0D 0xCC).2 =
        (fun _ => 0x00 : Nat → Nat) 0x0D) :=
  ⟨⟨by norm_num, by norm_num, by norm_num⟩,
   C3_roundtrip (fun _ => 0x00) 0x0D 0xCC (by norm_num) (by norm_num) (by norm_num)⟩

/-- C9: for every byte address a, including values with bit 7 set, read_reg
raises no error (it is total in the model) and sends exactly a, unmasked, as
the first outbound byte; and when bit 7 of a is set the exchange is a write
as interpreted by the peripheral: against the mock it stores the placeholder
byte 0x00 at the 7-bit address instead of leaving the state unchanged. -/
theorem C9_read_reg_unmasked {σ : Type} (P : Periph σ) (s : SpiState σ)
    (a : Nat) (ha : a < 256) :
    sentTrace (read_reg P s a).1 = sentTrace s ++ [Sum.inl [a, 0x00]] ∧
    (a.testBit 7 = true →
      ∀ (regs : Nat → Nat) (t : List Event),
        ((read_reg mock ⟨regs, t⟩ a).1).periph =
          fun x => if x = a % 0x80 then 0x00 else regs x) := by
  refine ⟨sentTrace_read_reg P s a, ?_⟩
  intro h7 regs t
  have hge : (0x80 : Nat) ≤ a := (testBit7_iff_ge a ha).1 h7
  rw [read_reg_fst]
  show (mock regs [a, 0x00]).1 = _
  simp only [mock]
  rw [if_pos hge]

/-- Witness for C9 at address 0x81, whose bit 7 is set. -/
theorem C9_read_reg_unmasked_witness :
    (0x81 < 256 ∧ (0x81 : Nat).testBit 7 = true) ∧
    sentTrace (read_reg (constResp 0) (initialState ()) 0x81).1 =
      sentTrace (initialState ()) ++ [Sum.inl [0x81, 0x00]] ∧
    ((read_reg mock (⟨fun _ => 0x0F, []⟩ : SpiState (Nat → Nat)) 0x81).1).periph =
      (fun x => if x = 0x81 % 0x80 then 0x00 else (fun _ => 0x0F : Nat → Nat) x) :=
  ⟨⟨by norm_num, by decide⟩,
   (C9_read_reg_unmasked (constResp 0) (initialState ()) 0x81 (by norm_num)).1,
   (C9_read_reg_unmasked (constResp 0) (initialState ()) 0x81 (by norm_num)).2
     (by decide) (fun _ => 0x0F) []⟩

/-- C10: the write encoding is idempotent in the discriminator bit: write_reg
at a and at a with bit 7 already set produce identical outbound buffers,
transfers, and results, while read_reg at 0x01 and at 0x81 produce different
outbound traffic, so no analogous masking protects read_reg. -/
theorem C10_write_flag_idempotent {σ : Type} (P : Periph σ) (s : SpiState σ)
    (a d : Nat) :
    write_reg P s a d = write_reg P s (a ||| 0x80) d ∧
    sentTrace (read_reg P s 0x01).1 ≠ sentTrace (read_reg P s 0x81).1 := by
  constructor
  · have h : (a ||| 0x80) ||| 0x80 = a ||| 0x80 := by
      rw [Nat.lor_assoc]
      norm_num
    simp [write_reg, bcm2835_spi_transfernb, h]
  · rw [sentTrace_read_reg, sentTrace_read_reg]
    intro h
    have h2 := List.append_cancel_left h
    simp at h2

/-- Witness for C10 at the operating-mode register with the LORA_SLEEP data
byte, against the mock peripheral. -/
theorem C10_write_flag_idempotent_witness :
    write_reg mock (⟨fun _ => 0x0F, []⟩ : SpiState (Nat → Nat)) 0x01 0x88 =
      write_reg mock (⟨fun _ => 0x0F, []⟩ : SpiState (Nat → Nat)) (0x01 ||| 0x80) 0x88 ∧
    sentTrace (read_reg mock (⟨fun _ => 0x0F, []⟩ : SpiState (Nat → Nat)) 0x01).1 ≠
      sentTrace (read_reg mock (⟨fun _ => 0x0F, []⟩ : SpiState (Nat → Nat)) 0x81).1 :=
  C10_write_flag_idempotent mock (⟨fun _ => 0x0F, []⟩ : SpiState (Nat → Nat)) 0x01 0x88

/-- Outbound view of the empty initial trace. -/
theorem sentTrace_initial {σ : Type} (p0 : σ) :
    sentTrace (initialState p0) = [] := rfl

/-- Numeral form of the write flag on the operating-mode register address. -/
theorem lor_1_128 : (0x01 : Nat) ||| 0x80 = 0x81 := by decide

/-- Numeral form of the write flag on the FIFO address pointer register
address. -/
theorem lor_13_128 : (0x0D : Nat) ||| 0x80 = 0x8D := by decide

/-- Numeral form of the write flag on the FIFO data register address. -/
theorem lor_0_128 : (0x00 : Nat) ||| 0x80 = 0x80 := by decide

/-- Outbound view of the trace after the diagnostic pass: one read transfer
per address of diagnoseAddrs, appended in order. -/
theorem sentTrace_diagnose {σ : Type} (P : Periph σ) (s : SpiState σ) :
    sentTrace (diagnose P s) =
      sentTrace s ++ diagnoseAddrs.map (fun a => Sum.inl [a, 0x00]) := by
  simp only [diagnose, sentTrace_read_reg, diagnoseAddrs, List.map_cons,
    List.map_nil, List.append_assoc, List.singleton_append, List.cons_append,
    List.nil_append, List.append_nil]

/-- C6: the diagnostic pass issues exactly one read transfer for every
defined register address except the FIFO data register 0x00, in the fixed
order diagnoseAddrs, and performs no writes: every outbound buffer is a read
encoding, its first byte below 0x80. -/
theorem C6_diagnose_all_regs {σ : Type} (P : Periph σ) (s : SpiState σ) :
    sentTrace (diagnose P s) =
      sentTrace s ++ diagnoseAddrs.map (fun a => Sum.inl [a, 0x00]) ∧
    diagnoseAddrs = definedRegisterAddrs.filter (· != REG_FIFO) ∧
    diagnoseAddrs.Nodup ∧
    (∀ a ∈ diagnoseAddrs, a < 0x80) := by
  refine ⟨sentTrace_diagnose P s, ?_, ?_, ?_⟩
  · decide
  · decide
  · decide

/-- Outbound view of the trace after the mode-entry phase when the masked
boot mode is zero: boot read, legacy-sleep write, LoRa sleep write, LoRa
standby write. -/
theorem sentTrace_modeEntry_clear {σ : Type} (P : Periph σ) (p0 : σ)
    (hb : (bootRead P p0).2 &&& 0x80 = 0) :
    sentTrace (modeEntryState P p0) =
      [Sum.inl [0x01, 0x00], Sum.inl [0x81, 0x08], Sum.inl [0x81, 0x88],
       Sum.inl [0x81, 0x89]] := by
  simp only [modeEntryState]
  rw [if_pos hb]
  simp only [sentTrace, read_reg_fst, write_reg_fst, bootRead, initialState]
  simp [sent, List.map_append, lor_1_128, REG_OP_MODE, FSK_SLEEP, LORA_SLEEP,
    LORA_STANDBY]

/-- Outbound view of the trace after the mode-entry phase when the masked
boot mode is nonzero: boot read, LoRa sleep write, LoRa standby write, with
no legacy-sleep write. -/
theorem sentTrace_modeEntry_set {σ : Type} (P : Periph σ) (p0 : σ)
    (hb : (bootRead P p0).2 &&& 0x80 ≠ 0) :
    sentTrace (modeEntryState P p0) =
      [Sum.inl [0x01, 0x00], Sum.inl [0x81, 0x88], Sum.inl [0x81, 0x89]] := by
  simp only [modeEntryState]
  rw [if_neg hb]
  simp only [sentTrace, read_reg_fst, write_reg_fst, bootRead, initialState]
  simp [sent, List.map_append, lor_1_128, REG_OP_MODE, LORA_SLEEP, LORA_STANDBY]

/-- Outbound view of the trace after the transmit test: FIFO pointer read,
FIFO pointer write of the transmit base 0x80, FIFO write of the payload byte
0xCC, operating-mode write of LORA_TX, the completed busy-wait spin of
5000000 iterations, then the IRQ flags read and the operating-mode read. -/
theorem sentTrace_txTest {σ : Type} (P : Periph σ) (s : SpiState σ) :
    sentTrace (txTest P s) =
      sentTrace s ++
        [Sum.inl [0x0D, 0x00], Sum.inl [0x8D, 0x80], Sum.inl [0x80, 0xCC],
         Sum.inl [0x81, 0x8B], Sum.inr 5000000,
         Sum.inl [0x12, 0x00], Sum.inl [0x01, 0x00]] := by
  simp only [txTest, sentTrace, read_reg_fst, write_reg_fst, busyWaitLoop_zero]
  simp [sent, List.map_append, List.append_assoc, lor_1_128, lor_13_128,
    lor_0_128, REG_FIFO_ADDR_PTR, REG_FIFO, REG_OP_MODE, REG_IRQ_FLAGS,
    FIFO_TX_BASE_ADDR, LORA_TX]

/-- C5: if bit 7 of the initial operating-mode read is clear, the sequencer
writes the legacy sleep value 0x08 to the operating-mode register before any
LoRa-family mode write; if bit 7 is set, that write is not issued; in both
cases it then writes LoRa sleep 0x88 followed by LoRa standby 0x89. -/
theorem C5_mode_guard {σ : Type} (P : Periph σ) (p0 : σ) :
    ((bootRead P p0).2.testBit 7 = false →
      sentTrace (modeEntryState P p0) =
        [Sum.inl [0x01, 0x00], Sum.inl [0x81, 0x08], Sum.inl [0x81, 0x88],
         Sum.inl [0x81, 0x89]]) ∧
    ((bootRead P p0).2.testBit 7 = true →
      sentTrace (modeEntryState P p0) =
        [Sum.inl [0x01, 0x00], Sum.inl [0x81, 0x88], Sum.inl [0x81, 0x89]]) := by
  have hlt : (bootRead P p0).2 < 256 :=
    read_reg_snd_lt P (initialState p0) REG_OP_MODE
  constructor
  · intro h7
    exact sentTrace_modeEntry_clear P p0 ((land128_eq_zero_iff _ hlt).2 h7)
  · intro h7
    apply sentTrace_modeEntry_set
    intro h0
    have hf := (land128_eq_zero_iff _ hlt).1 h0
    rw [hf] at h7
    simp at h7

/-- Witness for C5 at the end-to-end scenario of the source: a peripheral
booting with operating mode 0x0F, whose bit 7 is clear. -/
theorem C5_mode_guard_witness :
    (bootRead (constResp 0x0F) ()).2.testBit 7 = false ∧
    sentTrace (modeEntryState (constResp 0x0F) ()) =
      [Sum.inl [0x01, 0x00], Sum.inl [0x81, 0x08], Sum.inl [0x81, 0x88],
       Sum.inl [0x81, 0x89]] :=
  ⟨by decide, (C5_mode_guard (constResp 0x0F) ()).1 (by decide)⟩

/-- C4: the sequencer terminates with exit status 1 precisely when the
standby-check read of the operating-mode register differs from the standby
encoding 0x89, and in that case the run ends right after the check: its
whole trace is the mode-entry phase followed by that single check read, with
no diagnostics and no transmit test. -/
theorem C4_standby_gate {σ : Type} (P : Periph σ) (p0 : σ) :
    ((main P p0).2 = 1 ↔ (standbyCheck P p0).2 ≠ LORA_STANDBY) ∧
    ((standbyCheck P p0).2 ≠ LORA_STANDBY →
      sentTrace (main P p0).1 =
        sentTrace (modeEntryState P p0) ++ [Sum.inl [0x01, 0x00]]) := by
  by_cases h : (standbyCheck P p0).2 = LORA_STANDBY
  · refine ⟨by simp [main, h], fun hn => absurd h hn⟩
  · refine ⟨by simp [main, h], fun _ => ?_⟩
    have hm : (main P p0).1 = (standbyCheck P p0).1 := by simp [main, h]
    rw [hm]
    show sentTrace (read_reg P (modeEntryState P p0) REG_OP_MODE).1 = _
    rw [sentTrace_read_reg]
    rfl

/-- Witness for C4 against a peripheral answering 0x12 to every transfer, so
the standby check fails. -/
theorem C4_standby_gate_witness :
    (standbyCheck (constResp 0x12) ()).2 ≠ LORA_STANDBY ∧
    ((main (constResp 0x12) ()).2 = 1 ↔
      (standbyCheck (constResp 0x12) ()).2 ≠ LORA_STANDBY) ∧
    sentTrace (main (constResp 0x12) ()).1 =
      sentTrace (modeEntryState (constResp 0x12) ()) ++ [Sum.inl [0x01, 0x00]] :=
  ⟨by decide, (C4_standby_gate (constResp 0x12) ()).1,
   (C4_standby_gate (constResp 0x12) ()).2 (by decide)⟩

/-- C7: when the standby check passes, the rest of the run after the
diagnostics is, in this order: the FIFO address pointer read, the FIFO
address pointer write of 0x80, the FIFO write of the payload byte 0xCC, the
operating-mode write of the transmit encoding 0x8B, the completed fixed
busy-wait spin of 5000000 iterations, and only then the IRQ flags read and
the operating-mode read, with nothing between the transmit-trigger write and
the end of the wait. -/
theorem C7_tx_ordering {σ : Type} (P : Periph σ) (p0 : σ)
    (hc : (standbyCheck P p0).2 = LORA_STANDBY) :
    sentTrace (main P p0).1 =
      sentTrace (diagnose P (standbyCheck P p0).1) ++
        [Sum.inl [0x0D, 0x00], Sum.inl [0x8D, 0x80], Sum.inl [0x80, 0xCC],
         Sum.inl [0x81, 0x8B], Sum.inr 5000000,
         Sum.inl [0x12, 0x00], Sum.inl [0x01, 0x00]] := by
  have hm : (main P p0).1 = txTest P (diagnose P (standbyCheck P p0).1) := by
    simp [main, hc]
  rw [hm, sentTrace_txTest]

/-- Witness for C7 against the mock peripheral booting with all registers
zero, for which the standby check passes. -/
theorem C7_tx_ordering_witness :
    (standbyCheck mock (fun _ => 0x00)).2 = LORA_STANDBY ∧
    sentTrace (main mock (fun _ => 0x00)).1 =
      sentTrace (diagnose mock (standbyCheck mock (fun _ => 0x00)).1) ++
        [Sum.inl [0x0D, 0x00], Sum.inl [0x8D, 0x80], Sum.inl [0x80, 0xCC],
         Sum.inl [0x81, 0x8B], Sum.inr 5000000,
         Sum.inl [0x12, 0x00], Sum.inl [0x01, 0x00]] :=
  ⟨by decide, C7_tx_ordering mock (fun _ => 0x00) (by decide)⟩

/-- Outbound view of a complete successful run, as a function of whether the
boot-mode byte masked with 0x80 was zero (so the legacy-sleep write was
issued). -/
def mainSuccessSent (legacy : Bool) : List (List Nat ⊕ Nat) :=
  [Sum.inl [0x01, 0x00]] ++
    (if legacy then [Sum.inl [0x81, 0x08]] else []) ++
    [Sum.inl [0x81, 0x88], Sum.inl [0x81, 0x89], Sum.inl [0x01, 0x00]] ++
    diagnoseAddrs.map (fun a => Sum.inl [a, 0x00]) ++
    [Sum.inl [0x0D, 0x00], Sum.inl [0x8D, 0x80], Sum.inl [0x80, 0xCC],
     Sum.inl [0x81, 0x8B], Sum.inr 5000000,
     Sum.inl [0x12, 0x00], Sum.inl [0x01, 0x00]]

/-- Every run whose standby check passes exits with status 0 and has the
outbound trace determined by the single bit of the boot-mode read. -/
theorem sentTrace_main_success {σ : Type} (P : Periph σ) (p0 : σ)
    (hc : (standbyCheck P p0).2 = LORA_STANDBY) :
    (main P p0).2 = 0 ∧
    sentTrace (main P p0).1 =
      mainSuccessSent (decide ((bootRead P p0).2 &&& 0x80 = 0)) := by
  have hm1 : (main P p0).1 = txTest P (diagnose P (standbyCheck P p0).1) := by
    simp [main, hc]
  refine ⟨by simp [main, hc], ?_⟩
  rw [hm1, sentTrace_txTest, sentTrace_diagnose]
  have hsc : sentTrace (standbyCheck P p0).1 =
      sentTrace (modeEntryState P p0) ++ [Sum.inl [0x01, 0x00]] := by
    show sentTrace (read_reg P (modeEntryState P p0) REG_OP_MODE).1 = _
    rw [sentTrace_read_reg]
    rfl
  rw [hsc]
  by_cases hb : (bootRead P p0).2 &&& 0x80 = 0
  · rw [sentTrace_modeEntry_clear P p0 hb]
    simp [mainSuccessSent, hb]
  · rw [sentTrace_modeEntry_set P p0 hb]
    simp [mainSuccessSent, hb]

/-- C8 counterexample: two peripheral behaviors that both return 0x89 at the
standby check, yet the two runs perform different sequences of register
operations, because the boot-mode read of the first has bit 7 clear and that
of the second has bit 7 set, so only the first run issues the legacy-sleep
write.  This refutes the claim as stated: agreement at the standby check
alone does not force identical operation sequences. -/
theorem C8_counterexample :
    (standbyCheck mock (fun _ => 0x00)).2 = LORA_STANDBY ∧
    (standbyCheck mock (fun a => if a = 1 then 0x80 else 0x00)).2 = LORA_STANDBY ∧
    (main mock (fun _ => 0x00)).2 = 0 ∧
    (main mock (fun a => if a = 1 then 0x80 else 0x00)).2 = 0 ∧
    sentTrace (main mock (fun _ => 0x00)).1 ≠
      sentTrace (main mock (fun a => if a = 1 then 0x80 else 0x00)).1 := by
  refine ⟨by decide, by decide, ?_, ?_, ?_⟩
  · exact (sentTrace_main_success mock _ (by decide)).1
  · exact (sentTrace_main_success mock _ (by decide)).1
  · rw [(sentTrace_main_success mock _ (by decide)).2,
      (sentTrace_main_success mock _ (by decide)).2]
    decide

/-- C8 as amended: for any two peripheral behaviors that agree on whether
bit 7 of the boot-mode read is clear and both return 0x89 at the standby
check, the program performs the same sequence of register operations and
exits with status 0 in both runs, regardless of every other byte either
peripheral returns. -/
theorem C8_post_check_independence {σ₁ σ₂ : Type} (P₁ : Periph σ₁) (p₁ : σ₁)
    (P₂ : Periph σ₂) (p₂ : σ₂)
    (hb : ((bootRead P₁ p₁).2 &&& 0x80 = 0) ↔ ((bootRead P₂ p₂).2 &&& 0x80 = 0))
    (h1 : (standbyCheck P₁ p₁).2 = LORA_STANDBY)
    (h2 : (standbyCheck P₂ p₂).2 = LORA_STANDBY) :
    (main P₁ p₁).2 = 0 ∧ (main P₂ p₂).2 = 0 ∧
    sentTrace (main P₁ p₁).1 = sentTrace (main P₂ p₂).1 := by
  obtain ⟨e1, t1⟩ := sentTrace_main_success P₁ p₁ h1
  obtain ⟨e2, t2⟩ := sentTrace_main_success P₂ p₂ h2
  refine ⟨e1, e2, ?_⟩
  rw [t1, t2]
  exact congrArg mainSuccessSent (decide_eq_decide.mpr hb)

/-- Witness for the amended C8: a stateless peripheral answering 0x89 to
every transfer, and the mock peripheral booting with mode 0x80; both have
bit 7 of the boot mode set and both pass the standby check. -/
theorem C8_post_check_independence_witness :
    ((((bootRead (constResp 0x89) ()).2 &&& 0x80 = 0) ↔
        ((bootRead mock (fun a => if a = 1 then 0x80 else 0x00)).2 &&& 0x80 = 0)) ∧
      (standbyCheck (constResp 0x89) ()).2 = LORA_STANDBY ∧
      (standbyCheck mock (fun a => if a = 1 then 0x80 else 0x00)).2 = LORA_STANDBY) ∧
    ((main (constResp 0x89) ()).2 = 0 ∧
      (main mock (fun a => if a = 1 then 0x80 else 0x00)).2 = 0 ∧
      sentTrace (main (constResp 0x89) ()).1 =
        sentTrace (main mock (fun a => if a = 1 then 0x80 else 0x00)).1) :=
  ⟨⟨by decide, by decide, by decide⟩,
   C8_post_check_independence (constResp 0x89) () mock
     (fun a => if a = 1 then 0x80 else 0x00) (by decide) (by decide) (by decide)⟩

end Lora
